import Mathlib

/-!
Shallow embedding of the kokoro-tts demo repository: the inference app
(app.py), which exposes text-to-speech through a web form, and the weight
download script (download_weights.py). Pure fragments of the Python code
are translated directly; external collaborators (the KPipeline model, the
hub download, the process environment) are passed in as explicit
parameters.
-/

/-! ## Inference service (app.py) -/

/-- One yield of the KPipeline generator: a (graphemes, phonemes, audio)
triple, as destructured by the line `_, _, audio = next(generator)` in
app.py. The audio payload type is kept abstract. -/
abbrev KSegment (α : Type) : Type := String × String × α

/-- Behaviour of one call of the module-level pipeline object: given the
input text, the voice identifier and the speed factor, either raise an
exception (carried as its message, the str of the exception) or yield a
finite sequence of segments. -/
abbrev PipelineFun (α : Type) : Type :=
  String → String → Nat → Except String (List (KSegment α))

/-- Observable outcome of one call of generate_speech: the lines printed
to the operator console, and either the returned (sample rate, audio)
pair or the message of the raised user-facing gr.Error. -/
structure ReqOutcome (α : Type) where
  log : List String
  result : Except String (Nat × α)

/-- Effect of `next(generator)` inside generate_speech: the audio of the
first yielded segment, or the message of the exception the pipeline
raises. On an immediately exhausted generator, next raises StopIteration,
whose str is the empty string. The voice identifier af_heart and the
speed factor 1 are the fixed arguments from app.py line 37. -/
def pipelineFirst {α : Type} (p : PipelineFun α) (text : String) :
    Except String α :=
  match p text "af_heart" 1 with
  | .error e => .error e
  | .ok [] => .error ""
  | .ok ((_, _, audio) :: _) => .ok audio

/-- generate_speech from app.py: call the pipeline with fixed voice
af_heart and fixed speed 1, take the first segment of the generator,
return the fixed sample rate 24000 paired with its audio; on any
exception print the error to the console and re-raise a user-facing
gr.Error with a descriptive message. -/
def generate_speech {α : Type} (p : PipelineFun α) (text : String) :
    ReqOutcome α :=
  match pipelineFirst p text with
  | .ok audio => ⟨[], .ok (24000, audio)⟩
  | .error e =>
      ⟨["Error generating speech: " ++ e],
       .error ("Failed to generate speech: " ++ e)⟩

/-- The long-lived service: each request of the session is answered by
generate_speech with the one pipeline handle fixed at startup; no other
state is threaded from one request to the next. -/
def serve {α : Type} (p : PipelineFun α) (reqs : List String) :
    List (ReqOutcome α) :=
  reqs.map (generate_speech p)

/-- Result of process startup in app.py: either the module-level pipeline
handle is ready, or the process printed the load error and exited with
the recorded status. -/
inductive StartupResult (P : Type) : Type where
  | ready : P → StartupResult P
  | exited : Nat → List String → StartupResult P

/-- Module-level pipeline construction in app.py lines 16 to 23: on
success the handle is ready; on any exception the process prints the
error and calls sys.exit(1). -/
def startup {P : Type} (construct : Except String P) : StartupResult P :=
  match construct with
  | .ok p => .ready p
  | .error e => .exited 1 ["Error loading model: " ++ e]

/-- Requests actually served by the process: the Gradio app is built and
launched only after the pipeline loaded; when startup exited, no request
is ever accepted or served. -/
def served {α : Type} (construct : Except String (PipelineFun α))
    (reqs : List String) : List (ReqOutcome α) :=
  match startup construct with
  | .ready p => serve p reqs
  | .exited _ _ => []

/-! ## Weight fetcher (download_weights.py) -/

/-- The fixed remote model identifier from download_weights.py. -/
def MODEL_ID : String := "hexgrad/Kokoro-82M"

/-- download_model_weights from download_weights.py: print the header,
attempt the snapshot download (passed in as its outcome), and on any
exception print the error plus the credential guidance without raising
further. The result collects the printed lines; the Except layer records
whether the function itself raises, and both branches end in ok. -/
def download_model_weights {σ : Type} (snapshot : Except String σ) :
    Except String (List String) :=
  .ok (("Downloading Kokoro TTS model weights from " ++ MODEL_ID ++ "...") ::
    match snapshot with
    | .ok _ => ["Model weights downloaded successfully!"]
    | .error e =>
        ["Error downloading model weights: " ++ e,
         "\nPlease make sure your Hugging Face token is correct.",
         "You can get a token from: https://huggingface.co/settings/tokens"])

/-- The script entry point around download_model_weights: the script calls
the function and falls off the end, so the process exit status is 0 when
the function returns normally; an uncaught exception would end the
process abnormally (modelled as status 1). -/
def download_main {σ : Type} (snapshot : Except String σ) :
    Nat × List String :=
  match download_model_weights snapshot with
  | .ok log => (0, log)
  | .error e => (1, [e])

/-! ## Token resolution (download_weights.py, main block) -/

/-- Process environment and dotenv file contents as association lists of
variable names and values. -/
abbrev EnvMap : Type := List (String × String)

/-- Lookup of os.environ.get: the value under the first matching name, or
none when the name is absent. -/
def getEnv (env : EnvMap) (k : String) : Option String :=
  (env.find? (fun kv => kv.1 == k)).map (fun kv => kv.2)

/-- Python `a or b` on optional strings: None and the empty string are
falsy, so the right operand is used exactly when the left is absent or
empty. -/
def pyOr (a b : Option String) : Option String :=
  match a with
  | some s => if s = "" then b else some s
  | none => b

/-- load_dotenv with its default override=False, as called at the top of
the main block: values from the configuration file are merged into the
process environment, but a variable already present in the process
environment is NOT overridden by a file value under the same name. -/
def load_dotenv (dotenvFile env : EnvMap) : EnvMap :=
  env ++ dotenvFile.filter (fun kv => !(env.any (fun e => e.1 == kv.1)))

/-- The token expression of the main block: args.token or
os.environ.get HUGGING_FACE_TOKEN or os.environ.get
HUGGING_FACE_HUB_TOKEN, read against an already merged environment. -/
def resolve_token (argsToken : Option String) (env : EnvMap) :
    Option String :=
  pyOr argsToken
    (pyOr (getEnv env "HUGGING_FACE_TOKEN")
      (getEnv env "HUGGING_FACE_HUB_TOKEN"))

/-- The whole main block token computation: load_dotenv merges the file
into the process environment, then the or-chain resolves the token. -/
def main_token (argsToken : Option String) (dotenvFile procEnv : EnvMap) :
    Option String :=
  resolve_token argsToken (load_dotenv dotenvFile procEnv)

/-- Token resolution as the specification words it: the explicit argument
first, then the value from the local configuration file, then the process
environment variable checked under the two alternate names. Written from
the words of the spec, to be compared with main_token. -/
def spec_resolve_token (argsToken : Option String)
    (dotenvFile procEnv : EnvMap) : Option String :=
  pyOr argsToken
    (pyOr
      (pyOr (getEnv dotenvFile "HUGGING_FACE_TOKEN")
        (getEnv dotenvFile "HUGGING_FACE_HUB_TOKEN"))
      (pyOr (getEnv procEnv "HUGGING_FACE_TOKEN")
        (getEnv procEnv "HUGGING_FACE_HUB_TOKEN")))

/-! ## Mirror semantics of the snapshot download -/

/-- A set of files as an association list of paths and contents. -/
abbrev FileSet : Type := List (String × String)

/-- Modelled from the spec: snapshot_download is an external hub library
call, not code of this repository; the glossary of the spec defines its
mirror semantics as reproducing the remote file set locally, overwriting
conflicting prior local content and merging with the rest. Remote entries
take precedence over prior local entries under the same path. -/
def snapshot_mirror (remote localDir : FileSet) : FileSet :=
  remote ++ localDir.filter (fun kv => !(remote.any (fun r => r.1 == kv.1)))

/-- Modelled from the spec: the fetch operation applied to a destination
directory in a given prior state. The presence of prior content opens no
error path, so the result is always ok. -/
def fetch (remote localDir : FileSet) : Except String FileSet :=
  .ok (snapshot_mirror remote localDir)

/-! ## Concrete pipelines used by the witnesses -/

/-- A pipeline that always yields one segment with audio payload 7. -/
def pOk : PipelineFun Nat := fun _ _ _ => .ok [("g", "ph", 7)]

/-- A pipeline that raises on the text bad and yields one segment on any
other text. -/
def pMix : PipelineFun Nat := fun t _ _ =>
  if t == "bad" then .error "boom" else .ok [("g", "ph", 7)]

/-- A pipeline whose generator is immediately exhausted. -/
def pEmpty : PipelineFun Nat := fun _ _ _ => .ok []


/-! ## Claims about generate_speech -/

/-- C1: for every non-empty input text on which synthesis succeeds,
generate_speech returns a pair whose first component, the sample rate, is
exactly 24000. -/
theorem c1_sample_rate_24000 {α : Type} (p : PipelineFun α) (text : String)
    (_hne : text ≠ "") (sr : Nat) (audio : α)
    (h : (generate_speech p text).result = .ok (sr, audio)) : sr = 24000 := by
  unfold generate_speech at h
  cases hp : pipelineFirst p text with
  | ok a => rw [hp] at h; simp at h; exact h.1.symm
  | error e => rw [hp] at h; simp at h

/-- C1 witness: the hypotheses hold at a concrete pipeline and input. -/
theorem c1_sample_rate_24000_witness :
    ("hi" : String) ≠ "" ∧
    (generate_speech pOk "hi").result = .ok (24000, 7) ∧
    (24000 : Nat) = 24000 :=
  ⟨by decide, rfl, c1_sample_rate_24000 pOk "hi" (by decide) 24000 7 rfl⟩

/-- C2: whenever the pipeline produces a non-empty sequence of segments,
generate_speech returns the audio of the first segment only; the result
does not mention the remaining segments, which are discarded. -/
theorem c2_first_segment_only {α : Type} (p : PipelineFun α) (text : String)
    (s : KSegment α) (rest : List (KSegment α))
    (h : p text "af_heart" 1 = .ok (s :: rest)) :
    generate_speech p text = ⟨[], .ok (24000, s.2.2)⟩ := by
  obtain ⟨g, ph, a⟩ := s
  simp [generate_speech, pipelineFirst, h]

/-- C2 witness: the hypothesis holds at a concrete pipeline and input. -/
theorem c2_first_segment_only_witness :
    pOk "x" "af_heart" 1 = .ok [("g", "ph", 7)] ∧
    generate_speech pOk "x" = ⟨[], .ok (24000, 7)⟩ :=
  ⟨rfl, c2_first_segment_only pOk "x" ("g", "ph", 7) [] rfl⟩

/-- C9: generate_speech invokes the pipeline with the fixed voice
identifier af_heart and the fixed speed factor 1: its outcome depends on
the pipeline only through the behaviour at that voice and speed, and the
caller controls nothing but the text. -/
theorem c9_fixed_voice_and_speed {α : Type} (p q : PipelineFun α)
    (text : String) (h : ∀ t, p t "af_heart" 1 = q t "af_heart" 1) :
    generate_speech p text = generate_speech q text := by
  simp [generate_speech, pipelineFirst, h text]

/-- A pipeline that behaves like pOk at voice af_heart and raises at any
other voice; used to witness C9. -/
def qAlt : PipelineFun Nat := fun _ v _ =>
  if v == "af_heart" then .ok [("g", "ph", 7)] else .error "elsewhere"

/-- C9 witness: the hypothesis holds for two concrete pipelines that agree
at the fixed voice and speed. -/
theorem c9_fixed_voice_and_speed_witness :
    (∀ t, pOk t "af_heart" 1 = qAlt t "af_heart" 1) ∧
    generate_speech pOk "hi" = generate_speech qAlt "hi" :=
  ⟨fun _ => rfl, c9_fixed_voice_and_speed pOk qAlt "hi" (fun _ => rfl)⟩

/-- C10: when the pipeline generator is immediately exhausted, the
StopIteration raised by next is caught by the same branch as any synthesis
failure: the process does not crash, the error is surfaced as the
user-facing message, and the outcome is exactly that of a pipeline raising
the same (empty) message. -/
theorem c10_empty_generator_handled {α : Type} (p : PipelineFun α)
    (text : String) (h : p text "af_heart" 1 = .ok []) :
    generate_speech p text =
      ⟨["Error generating speech: "], .error "Failed to generate speech: "⟩ ∧
    generate_speech p text =
      generate_speech
        (fun _ _ _ => (.error "" : Except String (List (KSegment α)))) text := by
  constructor <;> simp [generate_speech, pipelineFirst, h]

/-- C10 witness: the hypothesis holds at a concrete exhausted pipeline. -/
theorem c10_empty_generator_handled_witness :
    pEmpty "hi" "af_heart" 1 = .ok [] ∧
    generate_speech pEmpty "hi" =
      ⟨["Error generating speech: "], .error "Failed to generate speech: "⟩ :=
  ⟨rfl, (c10_empty_generator_handled pEmpty "hi" rfl).1⟩

/-- C3: when the pipeline raises on a request, generate_speech catches the
error, prints it to the operator console, and re-raises a user-facing
error whose message contains the original description; and the next
request of the session is answered exactly as it would be on its own, in
particular it succeeds whenever its own synthesis does. -/
theorem c3_error_caught_and_isolated {α : Type} (p : PipelineFun α)
    (t1 e : String) (h : p t1 "af_heart" 1 = .error e) :
    (generate_speech p t1).log = ["Error generating speech: " ++ e] ∧
    (∃ msg, (generate_speech p t1).result = .error msg ∧
      ∃ a b, msg = a ++ e ++ b) ∧
    (∀ t2, (serve p [t1, t2])[1]? = some (generate_speech p t2)) ∧
    (∀ t2 (s : KSegment α) rest, p t2 "af_heart" 1 = .ok (s :: rest) →
      (serve p [t1, t2])[1]? = some ⟨[], .ok (24000, s.2.2)⟩) := by
  refine ⟨?_, ?_, ?_, ?_⟩
  · simp [generate_speech, pipelineFirst, h]
  · refine ⟨"Failed to generate speech: " ++ e, ?_, "Failed to generate speech: ", "", ?_⟩
    · simp [generate_speech, pipelineFirst, h]
    · simp
  · intro t2; simp [serve]
  · intro t2 s rest h2
    obtain ⟨g, ph, a⟩ := s
    simp [serve, generate_speech, pipelineFirst, h2]

/-- C3 witness: the hypotheses hold at a concrete pipeline that raises on
the first request and succeeds on the second. -/
theorem c3_error_caught_and_isolated_witness :
    pMix "bad" "af_heart" 1 = .error "boom" ∧
    (generate_speech pMix "bad").log = ["Error generating speech: boom"] ∧
    (∃ msg, (generate_speech pMix "bad").result = .error msg ∧
      ∃ a b, msg = a ++ "boom" ++ b) ∧
    (serve pMix ["bad", "good"])[1]? = some ⟨[], .ok (24000, 7)⟩ :=
  ⟨rfl,
   (c3_error_caught_and_isolated pMix "bad" "boom" rfl).1,
   (c3_error_caught_and_isolated pMix "bad" "boom" rfl).2.1,
   (c3_error_caught_and_isolated pMix "bad" "boom" rfl).2.2.2 "good"
     ("g", "ph", 7) [] rfl⟩

/-- C4: when pipeline construction raises, startup exits with status 1,
which is non-zero, the process never reaches the ready state, and no
request is ever served; construction succeeding is the precondition for
serving anything. -/
theorem c4_fatal_startup {α : Type}
    (construct : Except String (PipelineFun α)) (e : String)
    (h : construct = .error e) :
    startup construct = .exited 1 ["Error loading model: " ++ e] ∧
    (1 : Nat) ≠ 0 ∧
    (∀ p, startup construct ≠ .ready p) ∧
    (∀ reqs, served construct reqs = []) := by
  subst h
  refine ⟨rfl, by decide, ?_, fun reqs => rfl⟩
  intro p hp
  simp [startup] at hp

/-- C4 witness: the hypothesis holds at a concrete failing construction. -/
theorem c4_fatal_startup_witness :
    startup (Except.error "load failed" : Except String (PipelineFun Nat)) =
      .exited 1 ["Error loading model: load failed"] ∧
    served (Except.error "load failed" : Except String (PipelineFun Nat))
      ["hi"] = [] :=
  ⟨(c4_fatal_startup (Except.error "load failed") "load failed" rfl).1,
   (c4_fatal_startup (Except.error "load failed") "load failed" rfl).2.2.2
     ["hi"]⟩

/-- C8: the outcome of a request depends solely on the text of that
request and the fixed pipeline handle: two runs on the same text give the
same outcome, and position i of a served session is unchanged when the
other requests of the session change. -/
theorem c8_request_independence {α : Type} (p : PipelineFun α)
    (r1 r2 : List String) (i : Nat) (h : r1[i]? = r2[i]?) :
    (serve p r1)[i]? = (serve p r2)[i]? ∧
    (∀ t, generate_speech p t = generate_speech p t) := by
  refine ⟨?_, fun t => rfl⟩
  simp [serve, List.getElem?_map, h]

/-- C8 witness: the hypothesis holds for two concrete sessions agreeing
at position 1. -/
theorem c8_request_independence_witness :
    (["x", "y"] : List String)[1]? = (["z", "y"] : List String)[1]? ∧
    (serve pOk ["x", "y"])[1]? = (serve pOk ["z", "y"])[1]? :=
  ⟨rfl, (c8_request_independence pOk ["x", "y"] ["z", "y"] 1 rfl).1⟩

/-! ## Claims about the weight fetcher -/

/-- C5 counterexample: with no command-line token, a configuration file
defining HUGGING_FACE_TOKEN and the process environment also defining
HUGGING_FACE_TOKEN, the code uses the process environment value, while
the claimed precedence (file before environment) picks the file value:
load_dotenv does not override variables already in the environment. -/
theorem c5_counterexample :
    main_token none [("HUGGING_FACE_TOKEN", "filetok")]
      [("HUGGING_FACE_TOKEN", "envtok")] = some "envtok" ∧
    spec_resolve_token none [("HUGGING_FACE_TOKEN", "filetok")]
      [("HUGGING_FACE_TOKEN", "envtok")] = some "filetok" ∧
    ("envtok" : String) ≠ "filetok" :=
  ⟨rfl, rfl, by decide⟩

/-- C5 amended: the command-line token is used whenever present and
non-empty (in particular when all three sources are present); otherwise
the token comes from the merged environment, where a variable already
present in the process environment beats a configuration-file value under
the same name, the file value is used when the process environment lacks
that name, and the first name HUGGING_FACE_TOKEN is checked before the
second name HUGGING_FACE_HUB_TOKEN. -/
theorem c5_token_precedence_amended :
    (∀ (t : String) (f e : EnvMap), t ≠ "" →
      main_token (some t) f e = some t) ∧
    (∀ (ft et : String), et ≠ "" →
      main_token none [("HUGGING_FACE_TOKEN", ft)]
        [("HUGGING_FACE_TOKEN", et)] = some et) ∧
    (∀ (ft : String), ft ≠ "" →
      main_token none [("HUGGING_FACE_TOKEN", ft)] [] = some ft) ∧
    (∀ (ft et : String), ft ≠ "" →
      main_token none [("HUGGING_FACE_TOKEN", ft)]
        [("HUGGING_FACE_HUB_TOKEN", et)] = some ft) := by
  refine ⟨?_, ?_, ?_, ?_⟩
  · intro t f e ht
    simp [main_token, resolve_token, pyOr, ht]
  · intro ft et het
    simp [main_token, resolve_token, load_dotenv, getEnv, pyOr, het]
  · intro ft hft
    simp [main_token, resolve_token, load_dotenv, getEnv, pyOr, hft]
  · intro ft et hft
    simp [main_token, resolve_token, load_dotenv, getEnv, pyOr, hft]

/-- C5 witness: the amended precedence evaluated at concrete tokens. -/
theorem c5_token_precedence_amended_witness :
    main_token (some "clitok") [("HUGGING_FACE_TOKEN", "filetok")]
      [("HUGGING_FACE_TOKEN", "envtok")] = some "clitok" ∧
    main_token none [("HUGGING_FACE_TOKEN", "filetok")]
      [("HUGGING_FACE_TOKEN", "envtok")] = some "envtok" ∧
    main_token none [("HUGGING_FACE_TOKEN", "filetok")] [] = some "filetok" ∧
    main_token none [("HUGGING_FACE_TOKEN", "filetok")]
      [("HUGGING_FACE_HUB_TOKEN", "envtok")] = some "filetok" :=
  ⟨c5_token_precedence_amended.1 "clitok" _ _ (by decide),
   c5_token_precedence_amended.2.1 "filetok" "envtok" (by decide),
   c5_token_precedence_amended.2.2.1 "filetok" (by decide),
   c5_token_precedence_amended.2.2.2 "filetok" "envtok" (by decide)⟩

/-- C6: the weight download never raises: on failure it prints the error
message and the credential guidance and returns normally, on success it
prints the success line; the script exit status is 0 in both cases, and
the printed outcome distinguishes failure from success. -/
theorem c6_download_failure_handled :
    (∀ (σ : Type) (snap : Except String σ),
      ∃ log, download_model_weights snap = .ok log) ∧
    (∀ (σ : Type) (snap : Except String σ), (download_main snap).1 = 0) ∧
    (∀ e : String,
      download_model_weights (Except.error e : Except String Unit) =
        .ok ["Downloading Kokoro TTS model weights from hexgrad/Kokoro-82M...",
             "Error downloading model weights: " ++ e,
             "\nPlease make sure your Hugging Face token is correct.",
             "You can get a token from: https://huggingface.co/settings/tokens"]) ∧
    (download_model_weights (Except.ok () : Except String Unit) =
      .ok ["Downloading Kokoro TTS model weights from hexgrad/Kokoro-82M...",
           "Model weights downloaded successfully!"]) ∧
    (∀ e : String,
      download_model_weights (Except.error e : Except String Unit) ≠
        download_model_weights (Except.ok () : Except String Unit)) := by
  refine ⟨?_, ?_, ?_, rfl, ?_⟩
  · intro σ snap
    cases snap <;> exact ⟨_, rfl⟩
  · intro σ snap
    cases snap <;> rfl
  · intro e; rfl
  · intro e h
    simp [download_model_weights, MODEL_ID] at h

/-- Helper: filtering twice with the same predicate filters once. -/
theorem filter_self_idem {β : Type} (p : β → Bool) (l : List β) :
    (l.filter p).filter p = l.filter p := by
  induction l with
  | nil => rfl
  | cons a t ih =>
      by_cases h : p a <;> simp [List.filter_cons, h, ih]

/-- Helper: every element of the remote file set fails the keep predicate
of snapshot_mirror, so none of the mirrored remote entries survives a
second filter against the same remote set. -/
theorem filter_remote_nil (remote : FileSet) :
    remote.filter (fun kv => !(remote.any (fun r => r.1 == kv.1))) = [] := by
  rw [List.filter_eq_nil_iff]
  intro kv hkv
  have hany : remote.any (fun r => r.1 == kv.1) = true :=
    List.any_eq_true.mpr ⟨kv, hkv, by simp⟩
  simp [hany]

/-- C7: re-fetching the same remote into a destination that already holds
a prior download of it does not fail and reproduces the same mirrored
file set: the fetch is idempotent from the perspective of the caller. -/
theorem c7_refetch_idempotent (remote fs : FileSet) :
    fetch remote (snapshot_mirror remote fs) =
      .ok (snapshot_mirror remote fs) := by
  unfold fetch
  congr 1
  unfold snapshot_mirror
  rw [List.filter_append, filter_remote_nil, filter_self_idem]
  simp
